import Mathlib

/-!
Verification of the Gourmet-Hub restaurant-discovery application.

The TypeScript source is shallowly embedded: pure computations (prompt
construction, response-shape normalization, review statistics, filter
toggling) become Lean functions; the React event handlers (`handleSend`,
`requestLocation`, `handleSearch`) become explicit state-transition
functions that also return the sequence of committed UI states.

React state-update semantics, used throughout: a `setX(v)` call inside an
event handler or callback does not mutate the state variable immediately;
all updates issued during one synchronous segment (one event-handler body,
one device/network callback, one loop iteration between `await` points)
are batched and the state variable takes only the batch's final value at
the next render.  Each synchronous segment therefore contributes exactly
one committed state to the observable trace.
-/

set_option maxRecDepth 20000

namespace GourmetHub

/-- Role of a chat message: the `'user' | 'model'` union of `ChatMessage.role`. -/
inductive Role where
  | user
  | model
deriving DecidableEq, Repr

/-- `ChatMessage` from types.ts:
`{ id: string; role: 'user' | 'model'; content: string; isStreaming?: boolean }`.
The optional `isStreaming` field is `Option Bool` (`none` = absent). -/
structure ChatMessage where
  id : String
  role : Role
  content : String
  isStreaming : Option Bool := none
deriving DecidableEq, Repr

/-- `Coordinates` from types.ts: `{ latitude: number; longitude: number }`.
The application never performs arithmetic on coordinates (they are captured
from the device and passed through to the AI service), so the numeric type
is embedded as `Int`; only pass-through equality is ever at stake. -/
structure Coordinates where
  latitude : Int
  longitude : Int
deriving DecidableEq, Repr

/-- `Review` from types.ts:
`{ id: string; restaurantTitle: string; rating: number; comment: string; timestamp: number }`.
Ratings are produced by the star control as integers 1–5, embedded as `Nat`. -/
structure Review where
  id : String
  restaurantTitle : String
  rating : Nat
  comment : String
  timestamp : Nat
deriving DecidableEq, Repr

/-- The optional `placeAnswerSources` payload of a grounding chunk
(types.ts): a list of review snippets, each `{ content: string }`. -/
structure PlaceAnswerSources where
  reviewSnippets : Option (List String) := none
deriving DecidableEq, Repr

/-- The `maps` payload of a `GroundingChunk` (types.ts):
`{ uri: string; title: string; placeId?: string; placeAnswerSources?: ... }`. -/
structure MapsInfo where
  uri : String
  title : String
  placeId : Option String := none
  placeAnswerSources : Option PlaceAnswerSources := none
deriving DecidableEq, Repr

/-- `GroundingChunk` from types.ts: `{ maps?: ... }` — `maps` is optional. -/
structure GroundingChunk where
  maps : Option MapsInfo := none
deriving DecidableEq, Repr

/-- `RestaurantResult` from types.ts:
`{ text: string; groundingChunks: GroundingChunk[] }`. -/
structure RestaurantResult where
  text : String
  groundingChunks : List GroundingChunk
deriving DecidableEq, Repr

/-! ## Restaurant Finder: filter toggling

Source (`src/components/RestaurantFinder.tsx`, `toggleFilter`):
```
const toggleFilter = <T extends string>(item, current, setFn) => {
  if (current.includes(item)) {
    setFn(current.filter(i => i !== item));
  } else {
    setFn([...current, item]);
  }
};
```
The setter is applied to the value it is handed, so the embedding is the
pure list-to-list function. -/

/-- `toggleFilter` on a selection list: remove the item if present
(JS `Array.filter` removes every occurrence), otherwise append it. -/
def toggleFilter {α : Type} [DecidableEq α] (item : α) (current : List α) : List α :=
  if item ∈ current then
    current.filter (fun i => i ≠ item)
  else
    current ++ [item]

/-! ## Restaurant Finder: aggregate rating

Source (`src/components/RestaurantFinder.tsx`, `getRestaurantStats`):
```
const getRestaurantStats = (title: string) => {
  const restaurantReviews = reviews.filter(r => r.restaurantTitle === title);
  if (restaurantReviews.length === 0) return null;
  const sum = restaurantReviews.reduce((acc, r) => acc + r.rating, 0);
  return { average: (sum / restaurantReviews.length).toFixed(1), count: ... };
};
```
`(x).toFixed(1)` is modelled on the exact rational value `sum / count`:
per the ECMAScript `toFixed` algorithm, the result digit string denotes
`n / 10` where `n` is the integer closest to `10 * x`, ties resolved to
the larger `n` (round half toward plus infinity).  With `sum, count : Nat`
that is `n = (20 * sum + count) / (2 * count)` in floor division.
(Double rounding through the binary float representation of `sum / count`
is not modelled.) -/

/-- The integer closest to `10 * (sum / count)`, ties to the larger value:
the digits `toFixed(1)` prints, as a single number scaled by 10. -/
def toFixed1Numerator (sum count : Nat) : Nat :=
  (20 * sum + count) / (2 * count)

/-- Render the exact rational `sum / count` to one decimal place the way
`Number.prototype.toFixed(1)` does (round half up for nonnegative values). -/
def renderFixed1 (sum count : Nat) : String :=
  toString (toFixed1Numerator sum count / 10) ++ "." ++
    toString (toFixed1Numerator sum count % 10)

/-- Aggregate-rating statistics for a place title: `none` embeds the
source's `null` return ("no ratings"); otherwise the rendered average and
the count of matching reviews. -/
def getRestaurantStats (reviews : List Review) (title : String) : Option (String × Nat) :=
  let restaurantReviews := reviews.filter (fun r => r.restaurantTitle = title)
  if restaurantReviews.length = 0 then none
  else
    let sum := restaurantReviews.foldl (fun acc r => acc + r.rating) 0
    some (renderFixed1 sum restaurantReviews.length, restaurantReviews.length)

/-! ## AI Integration Service: prompt construction

Source (`services/gemini.ts`, `findRestaurants`): `dishes` is an optional
string parameter (`dishes?: string`), guarded by JavaScript truthiness
(`if (dishes)`), so both `undefined` and the empty string suppress the
dish clause. -/

/-- JavaScript truthiness of an optional string: `undefined` and `""` are
falsy, every other string is truthy. -/
def jsTruthy (s : Option String) : Bool :=
  match s with
  | none => false
  | some t => t ≠ ""

/-- The `CuisineType` enumeration values from types.ts, in declaration order. -/
def cuisineTypeValues : List String :=
  ["Any Cuisine", "Italian", "Mexican", "Chinese", "Japanese", "Indian",
   "American", "French", "Thai", "Mediterranean", "Vegan"]

/-- The `PriceRange` enumeration values from types.ts, in declaration order. -/
def priceRangeValues : List String :=
  ["Any Price", "$", "$$", "$$$", "$$$$"]

/-- The dietary clause appended to `filterText` when `dietary` is non-empty
(`dietary.join(', ')` is `String.intercalate ", "`). -/
def dietaryClause (dietary : List String) : String :=
  "The user specifically requires these dietary options: " ++
    String.intercalate ", " dietary ++ ". "

/-- The amenities clause appended to `filterText` when `amenities` is non-empty. -/
def amenityClause (amenities : List String) : String :=
  "The user specifically requires these amenities: " ++
    String.intercalate ", " amenities ++ ". "

/-- The dish clause appended to `filterText` when `dishes` is truthy. -/
def dishClause (dishes : String) : String :=
  "The user is interested in these specific dishes: " ++ dishes ++ ". "

/-- `filterText` from `findRestaurants`: starts empty and appends, in this
order, the dietary clause (if `dietary.length > 0`), the amenities clause
(if `amenities.length > 0`), and the dish clause (if `dishes` is truthy).
Sequential `+=` is embedded as concatenation of the three guarded pieces. -/
def filterText (dietary amenities : List String) (dishes : Option String) : String :=
  (if dietary.length > 0 then dietaryClause dietary else "") ++
  (if amenities.length > 0 then amenityClause amenities else "") ++
  (if jsTruthy dishes then dishClause (dishes.getD "") else "")

/-- The fixed text of the prompt template between the price slot and the
filter text (the template literal's line break plus two-space indentation). -/
def promptMid : String := " price range. \n  "

/-- The fixed text of the prompt template after the filter text. -/
def promptTail : String :=
  "\n  Provide a helpful summary of the top recommendations, mentioning their ratings, specific matches for the user\x27s requirements, and what they are known for.\n  Do not invent places. Only use the Google Maps tool to find real places."

/-- The prompt constructed by `findRestaurants` (services/gemini.ts):
the template literal with the cuisine slot (`''` for the "Any Cuisine"
sentinel, the cuisine string otherwise), the price slot (`'any'` for the
"Any Price" sentinel, the price string otherwise), and `filterText`. -/
def findRestaurantsPrompt (cuisine price : String) (dietary amenities : List String)
    (dishes : Option String) : String :=
  "Find top-rated " ++ (if cuisine = "Any Cuisine" then "" else cuisine) ++
  " restaurants near me that are in the " ++
  (if price = "Any Price" then "any" else price) ++
  promptMid ++ filterText dietary amenities dishes ++ promptTail

/-- Substring containment: `pat` occurs contiguously inside `s`. -/
def containsSubstr (s pat : String) : Prop :=
  pat.data <:+: s.data

instance (s pat : String) : Decidable (containsSubstr s pat) :=
  List.decidableInfix pat.data s.data

/-! ## AI Integration Service: response normalization

Source (`services/gemini.ts`, `findRestaurants`):
```
const text = response.text || "No details found.";
const groundingChunks = response.candidates?.[0]?.groundingMetadata?.groundingChunks || [];
return { text, groundingChunks };
```
wrapped in `try { ... } catch (error) { console.error(...); throw error; }`.
Every level of the provider response that optional chaining may find
absent is an `Option`.  An *empty* `text` string is falsy in JavaScript,
so it also triggers the fallback; an empty chunk *array* is truthy, so it
is returned as-is. -/

/-- The grounding-metadata level of a provider candidate. -/
structure GroundingMetadata where
  groundingChunks : Option (List GroundingChunk) := none
deriving DecidableEq, Repr

/-- One candidate of a provider response. -/
structure Candidate where
  groundingMetadata : Option GroundingMetadata := none
deriving DecidableEq, Repr

/-- The provider's `GenerateContentResponse`, restricted to the fields the
service reads: `text` and the `candidates` list. -/
structure GenerateContentResponse where
  text : Option String := none
  candidates : Option (List Candidate) := none
deriving DecidableEq, Repr

/-- `response.text || "No details found."`: the provider text unless it is
absent or empty. -/
def resultText (r : GenerateContentResponse) : String :=
  match r.text with
  | none => "No details found."
  | some t => if t = "" then "No details found." else t

/-- `response.candidates?.[0]?.groundingMetadata?.groundingChunks || []`:
optional chaining through candidates, first element, metadata, chunks;
`undefined` at any level yields `[]`. -/
def resultGroundingChunks (r : GenerateContentResponse) : List GroundingChunk :=
  match r.candidates with
  | none => []
  | some cs =>
    match cs.head? with
    | none => []
    | some c =>
      match c.groundingMetadata with
      | none => []
      | some m =>
        match m.groundingChunks with
        | none => []
        | some chunks => chunks

/-- The result-construction phase of `findRestaurants`: given the outcome
of the provider call (an exception or a response), either rethrow the
error (the catch block logs and rethrows unmodified) or normalize the
response into a `RestaurantResult`. -/
def findRestaurants {ε : Type} (provider : Except ε GenerateContentResponse) :
    Except ε RestaurantResult :=
  match provider with
  | .error e => .error e
  | .ok response => .ok { text := resultText response
                          groundingChunks := resultGroundingChunks response }

/-! ## Chat Assistant: `handleSend`

Source (`components/ChatBot.tsx`, `handleSend`).  The streamed reply is
embedded as a script: either initiation fails, or the iteration yields a
finite list of fragments (each fragment's `.text` may be absent) and then
either completes or raises.  The fresh `Date.now()`-derived identifiers of
the user message, the bot placeholder, and the apology message are
parameters.  Each synchronous segment (the pre-await handler body, the
post-await placeholder append, each loop iteration, the finalize/catch
block) commits one message-list state; `handleSendCommits` returns that
list of committed message lists, in order. -/

/-- JavaScript `String.prototype.trim()`, modelled on the character list:
drop whitespace from both ends.  (Structurally recursive, unlike the
built-in `String.trim`, so concrete runs evaluate inside proofs.) -/
def jsTrim (s : String) : String :=
  String.mk (((s.data.dropWhile Char.isWhitespace).reverse.dropWhile
    Char.isWhitespace).reverse)

/-- A script for one streamed chat reply. -/
inductive ChatStream where
  /-- `sendMessageStream` itself rejects: the catch block runs before any
  placeholder is appended. -/
  | initFailure
  /-- The stream yields `chunks` (each carrying an optional text fragment)
  and then, if `failsAfter` is true, raises a mid-stream failure; otherwise
  it completes normally. -/
  | run (chunks : List (Option String)) (failsAfter : Bool)
deriving DecidableEq, Repr

/-- State owned by the chat component that `handleSend` touches. -/
structure ChatState where
  messages : List ChatMessage
  input : String
  isLoading : Bool
deriving DecidableEq, Repr

/-- The fixed apology appended by the catch block of `handleSend`. -/
def apologyText : String := "Sorry, I encountered an error. Please try again."

/-- The welcome message seeding the chat message list at mount. -/
def welcomeMessage : ChatMessage :=
  { id := "welcome", role := .model,
    content := "Hello! I am your AI food assistant. Ask me anything about cuisines, ingredients, or cooking tips." }

/-- One iteration of the `for await` loop body: if the fragment's text is
truthy, extend the accumulator and replace the placeholder's content with
the full accumulated text (committing a new message-list state); otherwise
change nothing.  The accumulator state is
(`fullContent`, committed lists so far, current message list). -/
def chatLoopStep (botId : String) (acc : String × List (List ChatMessage) × List ChatMessage)
    (chunkText : Option String) : String × List (List ChatMessage) × List ChatMessage :=
  match chunkText with
  | none => acc
  | some txt =>
    if txt = "" then acc
    else
      let fullContent := acc.1 ++ txt
      let cur := acc.2.2.map (fun msg =>
        if msg.id = botId then { msg with content := fullContent } else msg)
      (fullContent, acc.2.1 ++ [cur], cur)

/-- The committed message-list states produced by one `handleSend` call,
in order.  Empty when the guard (`!input.trim() || isLoading`) makes the
call a no-op. -/
def handleSendCommits (s : ChatState) (userId botId errId : String)
    (stream : ChatStream) : List (List ChatMessage) :=
  if jsTrim s.input = "" ∨ s.isLoading then []
  else
    let userMsg : ChatMessage := { id := userId, role := .user, content := s.input }
    let afterUser := s.messages ++ [userMsg]
    match stream with
    | .initFailure =>
      [afterUser,
       afterUser ++ [{ id := errId, role := .model, content := apologyText }]]
    | .run chunks failsAfter =>
      let afterPlaceholder :=
        afterUser ++ [{ id := botId, role := .model, content := "", isStreaming := some true }]
      let loop := chunks.foldl (chatLoopStep botId) ("", [], afterPlaceholder)
      if failsAfter then
        [afterUser, afterPlaceholder] ++ loop.2.1 ++
          [loop.2.2 ++ [{ id := errId, role := .model, content := apologyText }]]
      else
        [afterUser, afterPlaceholder] ++ loop.2.1 ++
          [loop.2.2.map (fun msg =>
            if msg.id = botId then { msg with isStreaming := some false } else msg)]

/-- The final message list after `handleSend` (the last committed state,
or the unchanged list when the guard made the call a no-op). -/
def handleSendFinalMessages (s : ChatState) (userId botId errId : String)
    (stream : ChatStream) : List ChatMessage :=
  (handleSendCommits s userId botId errId stream).getLastD s.messages

/-- The (content, streaming-flag) view of the bot message with id `botId`
across a list of committed message lists, skipping commits in which no
such message exists yet. -/
def botMessageView (botId : String) (commits : List (List ChatMessage)) :
    List (String × Option Bool) :=
  commits.filterMap (fun l =>
    (l.find? (fun m => m.id = botId)).map (fun m => (m.content, m.isStreaming)))

/-! ## Restaurant Finder: state, `requestLocation`, `handleSearch` -/

/-- The `locationStatus` union `'idle' | 'loading' | 'success' | 'error'`. -/
inductive LocationStatus where
  | idle
  | loading
  | success
  | error
deriving DecidableEq, Repr

/-- State owned by the Restaurant Finder that `requestLocation` and
`handleSearch` touch. -/
structure FinderState where
  location : Option Coordinates := none
  locationStatus : LocationStatus := .idle
  cuisine : String := "Any Cuisine"
  price : String := "Any Price"
  dietary : List String := []
  amenities : List String := []
  customDish : String := ""
  isSearching : Bool := false
  result : Option RestaurantResult := none
  error : Option String := none
deriving DecidableEq, Repr

/-- A simulated device for `requestLocation`: either `navigator.geolocation`
is absent, or it is present and `getCurrentPosition` eventually invokes
exactly one of the two callbacks. -/
inductive GeoDevice where
  /-- `navigator.geolocation` is falsy: no location capability. -/
  | unsupported
  /-- The success callback fires with this position. -/
  | position (coords : Coordinates)
  /-- The error callback fires (permission denied, unavailable, or timeout). -/
  | failure
deriving DecidableEq, Repr

/-- Fixed message for a device without geolocation capability. -/
def geoUnsupportedMsg : String := "Geolocation is not supported by your browser."

/-- Fixed message for a failed position request. -/
def geoFailureMsg : String := "Unable to retrieve your location. Please check permissions."

/-- The committed states produced by one `requestLocation` call, in order.
The handler body synchronously sets status `loading` and, when the device
is unsupported, immediately overwrites it with `error` in the same batch,
so that segment commits a single state (React batches updates within one
handler turn); a supported device commits the `loading` state and then the
callback's segment commits the outcome state. -/
def requestLocationCommits (d : GeoDevice) (s : FinderState) : List FinderState :=
  match d with
  | .unsupported =>
    let afterLoading := { s with locationStatus := LocationStatus.loading }
    [{ afterLoading with locationStatus := .error, error := some geoUnsupportedMsg }]
  | .position coords =>
    let afterLoading := { s with locationStatus := LocationStatus.loading }
    [afterLoading,
     { afterLoading with location := some coords, locationStatus := .success, error := none }]
  | .failure =>
    let afterLoading := { s with locationStatus := LocationStatus.loading }
    [afterLoading,
     { afterLoading with locationStatus := .error, error := some geoFailureMsg }]

/-- The sequence of observable `locationStatus` values around one
`requestLocation` call: the status before the call followed by the status
of each committed state. -/
def locationStatusTrace (d : GeoDevice) (s : FinderState) : List LocationStatus :=
  s.locationStatus :: (requestLocationCommits d s).map (fun st => st.locationStatus)

/-- Fixed message shown when search is invoked without a location. -/
def noLocationMsg : String := "Please enable location services to find restaurants nearby."

/-- Fixed user-facing message for a failed search call. -/
def searchFailedMsg : String := "Failed to fetch recommendations. Please try again later."

/-- `handleSearch`, parameterized by the AI Integration Service call
(`findRestaurants`, an oracle from the search arguments to a result or an
exception).  Returns the final state together with the number of service
calls performed.  With no location: set the fixed error and return without
calling.  Otherwise: set `isSearching`, clear error and result, call the
service with the current location and all current filter values; on
success store the result, on failure set the fixed error message; the
`finally` block clears `isSearching` on every path. -/
def handleSearch {ε : Type}
    (svc : Coordinates → String → String → List String → List String → String →
      Except ε RestaurantResult)
    (s : FinderState) : FinderState × Nat :=
  match s.location with
  | none => ({ s with error := some noLocationMsg }, 0)
  | some loc =>
    let s1 := { s with isSearching := true, error := none, result := none }
    match svc loc s.cuisine s.price s.dietary s.amenities s.customDish with
    | .ok data => ({ s1 with result := some data, isSearching := false }, 1)
    | .error _ => ({ s1 with error := some searchFailedMsg, isSearching := false }, 1)

/-! ## Theorems -/

/-- Appending the toggled element back after filtering it out permutes a
duplicate-free list containing it. -/
lemma filter_ne_append_singleton_perm {α : Type} [DecidableEq α] {x : α} :
    ∀ {L : List α}, L.Nodup → x ∈ L →
      List.Perm ((L.filter (fun i => i ≠ x)) ++ [x]) L := by
  intro L
  induction L with
  | nil => intro _ hx; cases hx
  | cons a l ih =>
    intro hnd hx
    rcases List.nodup_cons.mp hnd with ⟨ha, hl⟩
    by_cases hax : a = x
    · subst hax
      have hfl : l.filter (fun i => i ≠ a) = l :=
        List.filter_eq_self.mpr (fun b hb => by
          simp only [decide_eq_true_eq]
          exact fun e => ha (e ▸ hb))
      have hstep : (a :: l).filter (fun i => i ≠ a) = l := by
        simp [List.filter_cons, hfl]
        exact fun b hb e => ha (e ▸ hb)
      rw [hstep]
      exact List.perm_append_singleton a l
    · have hx' : x ∈ l := by
        rcases List.mem_cons.mp hx with h | h
        · exact absurd h.symm hax
        · exact h
      have hkeep : (decide (a ≠ x)) = true := by simp [hax]
      simp only [List.filter_cons, hkeep, if_true, List.cons_append]
      exact (ih hl hx').cons a

/-- `toggleFilter` preserves freedom from duplicates. -/
lemma toggleFilter_nodup {α : Type} [DecidableEq α] (x : α) {L : List α}
    (h : L.Nodup) : (toggleFilter x L).Nodup := by
  unfold toggleFilter
  by_cases hx : x ∈ L
  · simpa [hx] using h.filter (fun i => decide (i ≠ x))
  · simp only [hx, if_false]
    refine List.nodup_append.mpr ⟨h, List.nodup_singleton x, ?_⟩
    intro a ha hb
    rcases List.mem_singleton.mp hb with rfl
    exact hx ha

/-- Claim C9: for every selection list and every tag, toggling the same tag
twice in succession returns the list to its original contents (a
permutation, hence equal as a multiset, given the duplicate-free lists the
UI maintains) and to the original relative order of the remaining
elements (filtering out the toggled tag on both sides yields identical
lists); when the tag was absent the list is restored exactly. -/
theorem claim_C9_double_toggle {α : Type} [DecidableEq α] (x : α) (L : List α)
    (h : L.Nodup) :
    List.Perm (toggleFilter x (toggleFilter x L)) L ∧
    (toggleFilter x (toggleFilter x L)).filter (fun i => i ≠ x) =
      L.filter (fun i => i ≠ x) ∧
    (x ∉ L → toggleFilter x (toggleFilter x L) = L) := by
  by_cases hx : x ∈ L
  · have h1 : toggleFilter x L = L.filter (fun i => i ≠ x) := by
      unfold toggleFilter; simp [hx]
    have hnotmem : x ∉ L.filter (fun i => i ≠ x) := by
      intro hmem
      have := (List.mem_filter.mp hmem).2
      simp at this
    have h2 : toggleFilter x (toggleFilter x L) =
        (L.filter (fun i => i ≠ x)) ++ [x] := by
      rw [h1]; unfold toggleFilter; simp [hnotmem]
    refine ⟨?_, ?_, fun hxn => absurd hx hxn⟩
    · rw [h2]
      exact filter_ne_append_singleton_perm h hx
    · rw [h2, List.filter_append, List.filter_filter]
      simp
  · have h1 : toggleFilter x L = L ++ [x] := by
      unfold toggleFilter; simp [hx]
    have hmem : x ∈ L ++ [x] := by simp
    have hfl : L.filter (fun i => i ≠ x) = L :=
      List.filter_eq_self.mpr (fun b hb => by
        simp only [decide_eq_true_eq]
        exact fun e => hx (e ▸ hb))
    have h2 : toggleFilter x (toggleFilter x L) = L := by
      rw [h1]; unfold toggleFilter
      simp only [hmem, if_true, List.filter_append, hfl]
      simp
    refine ⟨?_, by rw [h2, hfl], fun _ => h2⟩
    rw [h2]

/-- Claim C9 witness: double toggle of "Vegan" on the duplicate-free list
["Vegetarian", "Vegan", "Halal"]. -/
theorem claim_C9_double_toggle_witness :
    (["Vegetarian", "Vegan", "Halal"] : List String).Nodup ∧
    List.Perm (toggleFilter "Vegan" (toggleFilter "Vegan"
        (["Vegetarian", "Vegan", "Halal"] : List String)))
      ["Vegetarian", "Vegan", "Halal"] :=
  ⟨by decide,
   (claim_C9_double_toggle "Vegan" ["Vegetarian", "Vegan", "Halal"] (by decide)).1⟩

/-- Claim C10: starting from the empty selection list, every sequence of
`toggleFilter` operations yields a duplicate-free list; moreover
`toggleFilter` preserves freedom from duplicates, appends the tag exactly
when it is absent, removes (every occurrence) by filtering when present,
and the removal leaves no occurrence of the tag behind. -/
theorem claim_C10_toggle_nodup_invariant :
    (∀ (α : Type) [DecidableEq α] (ops : List α),
      (ops.foldl (fun l t => toggleFilter t l) ([] : List α)).Nodup) ∧
    (∀ (α : Type) [DecidableEq α] (x : α) (L : List α),
      L.Nodup → (toggleFilter x L).Nodup) ∧
    (∀ (α : Type) [DecidableEq α] (x : α) (L : List α),
      x ∉ L → toggleFilter x L = L ++ [x]) ∧
    (∀ (α : Type) [DecidableEq α] (x : α) (L : List α),
      x ∈ L → toggleFilter x L = L.filter (fun i => i ≠ x)) ∧
    (∀ (α : Type) [DecidableEq α] (x : α) (L : List α),
      x ∉ L.filter (fun i => i ≠ x)) := by
  refine ⟨?_, ?_, ?_, ?_, ?_⟩
  · intro α _ ops
    have key : ∀ (ops : List α) (L : List α), L.Nodup →
        (ops.foldl (fun l t => toggleFilter t l) L).Nodup := by
      intro ops
      induction ops with
      | nil => intro L h; exact h
      | cons t rest ih =>
        intro L h
        exact ih (toggleFilter t L) (toggleFilter_nodup t h)
    exact key ops [] List.nodup_nil
  · intro α _ x L h
    exact toggleFilter_nodup x h
  · intro α _ x L hx
    unfold toggleFilter; simp [hx]
  · intro α _ x L hx
    unfold toggleFilter; simp [hx]
  · intro α _ x L hmem
    have := (List.mem_filter.mp hmem).2
    simp at this

/-- Claim C10 witness: the toggle sequence Vegan, Halal, Vegan, Vegan from
the empty list yields a duplicate-free list, and a removal leaves no
occurrence of the removed tag. -/
theorem claim_C10_toggle_nodup_invariant_witness :
    ((["Vegan", "Halal", "Vegan", "Vegan"] : List String).foldl
      (fun l t => toggleFilter t l) ([] : List String)).Nodup ∧
    ("Vegan" ∉ (["Vegan", "Halal", "Vegan"] : List String).filter
      (fun i => i ≠ "Vegan")) ∧
    ("Wi-Fi" ∉ (["Outdoor Seating"] : List String)) ∧
    toggleFilter "Wi-Fi" (["Outdoor Seating"] : List String) =
      ["Outdoor Seating", "Wi-Fi"] :=
  ⟨claim_C10_toggle_nodup_invariant.1 String ["Vegan", "Halal", "Vegan", "Vegan"],
   claim_C10_toggle_nodup_invariant.2.2.2.2 String "Vegan" ["Vegan", "Halal", "Vegan"],
   by decide,
   claim_C10_toggle_nodup_invariant.2.2.1 String "Wi-Fi" ["Outdoor Seating"] (by decide)⟩

/-- The review list of the aggregate-rating example in the specification. -/
def exampleReviews : List Review :=
  [{ id := "r1", restaurantTitle := "A", rating := 4, comment := "", timestamp := 0 },
   { id := "r2", restaurantTitle := "A", rating := 5, comment := "", timestamp := 0 },
   { id := "r3", restaurantTitle := "B", rating := 1, comment := "", timestamp := 0 }]

/-- Claim C7: `getRestaurantStats` filters by exact `restaurantTitle`
equality; it reports the "no ratings" result (`none`) exactly when no
review matches; otherwise it reports the matching count together with the
arithmetic mean of the matching ratings rendered to one decimal place —
`toFixed1Numerator` is precisely the half-up rounding of ten times the
exact mean. -/
theorem claim_C7_restaurant_stats (reviews : List Review) (title : String) :
    (getRestaurantStats reviews title = none ↔
      ∀ r ∈ reviews, r.restaurantTitle ≠ title) ∧
    (∀ s c, getRestaurantStats reviews title = some (s, c) →
      c = (reviews.filter (fun r => r.restaurantTitle = title)).length ∧
      s = renderFixed1
        ((reviews.filter (fun r => r.restaurantTitle = title)).foldl
          (fun acc r => acc + r.rating) 0) c) ∧
    (∀ sum count : Nat, 0 < count →
      toFixed1Numerator sum count = ⌊(sum : ℚ) / count * 10 + 1 / 2⌋₊) := by
  refine ⟨?_, ?_, ?_⟩
  · unfold getRestaurantStats
    by_cases h : (reviews.filter (fun r => r.restaurantTitle = title)).length = 0
    · simp only [h, if_true, true_iff]
      have hnil := List.length_eq_zero.mp h
      have := List.filter_eq_nil_iff.mp hnil
      intro r hr
      have := this r hr
      simpa using this
    · simp only [h, if_false]
      refine iff_of_false (by simp) ?_
      intro hall
      apply h
      rw [List.length_eq_zero, List.filter_eq_nil_iff]
      intro r hr
      simpa using hall r hr
  · intro s c hsc
    unfold getRestaurantStats at hsc
    by_cases h : (reviews.filter (fun r => r.restaurantTitle = title)).length = 0
    · simp [h] at hsc
    · simp only [h, if_false, Option.some.injEq, Prod.mk.injEq] at hsc
      exact ⟨hsc.2.symm, by rw [hsc.2] at hsc; exact hsc.1.symm⟩
  · intro sum count hc
    have hcq : (count : ℚ) ≠ 0 := Nat.cast_ne_zero.mpr hc.ne'
    have key : (sum : ℚ) / count * 10 + 1 / 2 =
        ((20 * sum + count : Nat) : ℚ) / ((2 * count : Nat) : ℚ) := by
      push_cast
      field_simp
      ring
    rw [key, Nat.floor_div_eq_div]
    rfl

/-- Claim C7 witness: the specification's example — reviews
[{A,4},{A,5},{B,1}] give average "4.5" with count 2 for "A" and the
"no ratings" result for "C"; matching is case-sensitive; the rounding
characterization at sum 9, count 2. -/
theorem claim_C7_restaurant_stats_witness :
    getRestaurantStats exampleReviews "A" = some ("4.5", 2) ∧
    getRestaurantStats exampleReviews "C" = none ∧
    getRestaurantStats
      [{ id := "r4", restaurantTitle := "a", rating := 4, comment := "",
         timestamp := 0 }] "A" = none ∧
    (0 < 2 ∧ toFixed1Numerator 9 2 = ⌊(9 : ℚ) / 2 * 10 + 1 / 2⌋₊) := by
  refine ⟨by rfl, ?_, ?_, by norm_num, ?_⟩
  · exact (claim_C7_restaurant_stats exampleReviews "C").1.mpr (by decide)
  · exact (claim_C7_restaurant_stats _ "A").1.mpr (by decide)
  · exact (claim_C7_restaurant_stats exampleReviews "A").2.2 9 2 (by norm_num)

/-- Claim C5: invoking `handleSearch` with no location present sets the
error to exactly the fixed "enable location services" message, performs
zero calls to the AI Integration Service, and leaves the result, the
searching flag, and every other piece of state unchanged. -/
theorem claim_C5_search_precondition (ε : Type)
    (svc : Coordinates → String → String → List String → List String → String →
      Except ε RestaurantResult)
    (s : FinderState) (h : s.location = none) :
    handleSearch svc s = ({ s with error := some noLocationMsg }, 0) ∧
    (handleSearch svc s).1.error = some noLocationMsg ∧
    (handleSearch svc s).1.result = s.result ∧
    (handleSearch svc s).1.isSearching = s.isSearching ∧
    (handleSearch svc s).2 = 0 := by
  unfold handleSearch
  rw [h]
  exact ⟨rfl, rfl, rfl, rfl, rfl⟩

/-- Claim C5 witness: searching from the initial finder state (no
location) with a service that would always succeed. -/
theorem claim_C5_search_precondition_witness :
    ({} : FinderState).location = none ∧
    handleSearch
      (fun _ _ _ _ _ _ => Except.ok (ε := Unit)
        { text := "ok", groundingChunks := [] })
      ({} : FinderState) =
      ({ ({} : FinderState) with error := some noLocationMsg }, 0) :=
  ⟨rfl,
   (claim_C5_search_precondition Unit
     (fun _ _ _ _ _ _ => Except.ok { text := "ok", groundingChunks := [] })
     {} rfl).1⟩

/-- Claim C2: from idle, `requestLocation` on a device without geolocation
transitions the observable status directly to error — the synchronous
loading write is overwritten within the same batched handler turn, so
loading and success never appear in the committed-status trace — while on
a device whose position request succeeds the observable statuses are
exactly idle, loading, success and the stored coordinates are exactly the
ones the device reported. -/
theorem claim_C2_location_status_machine (s : FinderState)
    (h : s.locationStatus = .idle) :
    (locationStatusTrace .unsupported s = [.idle, .error] ∧
     LocationStatus.loading ∉ locationStatusTrace .unsupported s ∧
     LocationStatus.success ∉ locationStatusTrace .unsupported s) ∧
    (∀ c : Coordinates,
      locationStatusTrace (.position c) s = [.idle, .loading, .success] ∧
      ((requestLocationCommits (.position c) s).getLastD s).location = some c) := by
  refine ⟨⟨?_, ?_, ?_⟩, ?_⟩
  · simp [locationStatusTrace, requestLocationCommits, h]
  · simp [locationStatusTrace, requestLocationCommits, h]
  · simp [locationStatusTrace, requestLocationCommits, h]
  · intro c
    constructor
    · simp [locationStatusTrace, requestLocationCommits, h]
    · simp [requestLocationCommits]

/-- Claim C2 witness: the initial finder state, with the device reporting
latitude 40, longitude 70. -/
theorem claim_C2_location_status_machine_witness :
    ({} : FinderState).locationStatus = .idle ∧
    locationStatusTrace .unsupported ({} : FinderState) = [.idle, .error] ∧
    locationStatusTrace (.position { latitude := 40, longitude := 70 })
      ({} : FinderState) = [.idle, .loading, .success] ∧
    ((requestLocationCommits (.position { latitude := 40, longitude := 70 })
      ({} : FinderState)).getLastD {}).location =
      some { latitude := 40, longitude := 70 } :=
  ⟨rfl,
   (claim_C2_location_status_machine {} rfl).1.1,
   ((claim_C2_location_status_machine {} rfl).2
     { latitude := 40, longitude := 70 }).1,
   ((claim_C2_location_status_machine {} rfl).2
     { latitude := 40, longitude := 70 }).2⟩

/-- Claim C3: with both sentinels ("Any Cuisine", "Any Price") the prompt's
cuisine slot is the empty string and its price slot the generic "any" —
and the resulting prompt (with no optional filters) contains no cuisine
name and no price tier as a substring; for every non-sentinel cuisine
value the prompt contains that exact literal value. -/
theorem claim_C3_sentinel_omission :
    (∀ (dietary amenities : List String) (dishes : Option String),
      findRestaurantsPrompt "Any Cuisine" "Any Price" dietary amenities dishes =
        "Find top-rated " ++ "" ++ " restaurants near me that are in the " ++
          "any" ++ promptMid ++ filterText dietary amenities dishes ++ promptTail) ∧
    (∀ v ∈ cuisineTypeValues.drop 1 ++ priceRangeValues.drop 1,
      ¬ containsSubstr
        (findRestaurantsPrompt "Any Cuisine" "Any Price" [] [] none) v) ∧
    (∀ (cuisine price : String) (dietary amenities : List String)
        (dishes : Option String), cuisine ≠ "Any Cuisine" →
      containsSubstr (findRestaurantsPrompt cuisine price dietary amenities dishes)
        cuisine) := by
  refine ⟨?_, ?_, ?_⟩
  · intro dietary amenities dishes
    unfold findRestaurantsPrompt
    rw [if_pos rfl, if_pos rfl]
  · decide
  · intro cuisine price dietary amenities dishes hne
    unfold containsSubstr findRestaurantsPrompt
    rw [if_neg hne]
    refine ⟨"Find top-rated ".data,
      (" restaurants near me that are in the " ++
        (if price = "Any Price" then "any" else price) ++ promptMid ++
        filterText dietary amenities dishes ++ promptTail).data, ?_⟩
    simp [List.append_assoc]

/-- Claim C3 witness: the fully-sentinel prompt, absence of "Thai" from
it, and presence of the literal "Thai" in a Thai-cuisine prompt. -/
theorem claim_C3_sentinel_omission_witness :
    (findRestaurantsPrompt "Any Cuisine" "Any Price" [] [] none =
      "Find top-rated " ++ "" ++ " restaurants near me that are in the " ++
        "any" ++ promptMid ++ filterText [] [] none ++ promptTail) ∧
    ("Thai" ∈ cuisineTypeValues.drop 1 ++ priceRangeValues.drop 1 ∧
      ¬ containsSubstr
        (findRestaurantsPrompt "Any Cuisine" "Any Price" [] [] none) "Thai") ∧
    (("Thai" : String) ≠ "Any Cuisine" ∧
      containsSubstr (findRestaurantsPrompt "Thai" "$$" [] [] none) "Thai") :=
  ⟨claim_C3_sentinel_omission.1 [] [] none,
   ⟨by decide, claim_C3_sentinel_omission.2.1 "Thai" (by decide)⟩,
   ⟨by decide, claim_C3_sentinel_omission.2.2 "Thai" "$$" [] [] none (by decide)⟩⟩

/-- Claim C4: the prompt decomposes as a fixed prefix, then the dietary
clause (exactly when `dietary` is non-empty), then the amenities clause
(exactly when `amenities` is non-empty), then the dish clause (exactly
when `dishes` is truthy), then the fixed tail — adjacent and in that
fixed order; on the specification's example the three comma-separated
clauses appear verbatim in order, and with all optional inputs empty no
clause marker occurs anywhere in the prompt. -/
theorem claim_C4_filter_clause_order :
    (∀ (cuisine price : String) (dietary amenities : List String)
        (dishes : Option String),
      findRestaurantsPrompt cuisine price dietary amenities dishes =
        ("Find top-rated " ++ (if cuisine = "Any Cuisine" then "" else cuisine) ++
          " restaurants near me that are in the " ++
          (if price = "Any Price" then "any" else price) ++ promptMid) ++
        (if dietary.length > 0 then dietaryClause dietary else "") ++
        (if amenities.length > 0 then amenityClause amenities else "") ++
        (if jsTruthy dishes then dishClause (dishes.getD "") else "") ++
        promptTail) ∧
    (findRestaurantsPrompt "Any Cuisine" "Any Price" ["Vegan", "Gluten-Free"]
        ["Wi-Fi"] (some "Ramen") =
      "Find top-rated  restaurants near me that are in the any price range. \n  " ++
        ("The user specifically requires these dietary options: Vegan, Gluten-Free. " ++
          "The user specifically requires these amenities: Wi-Fi. " ++
          "The user is interested in these specific dishes: Ramen. ") ++
        promptTail) ∧
    (dietaryClause ["Vegan", "Gluten-Free"] =
      "The user specifically requires these dietary options: Vegan, Gluten-Free. ") ∧
    (amenityClause ["Wi-Fi"] =
      "The user specifically requires these amenities: Wi-Fi. ") ∧
    (dishClause "Ramen" =
      "The user is interested in these specific dishes: Ramen. ") ∧
    (¬ containsSubstr (findRestaurantsPrompt "Any Cuisine" "Any Price" [] [] none)
        "dietary options" ∧
      ¬ containsSubstr (findRestaurantsPrompt "Any Cuisine" "Any Price" [] [] none)
        "amenities" ∧
      ¬ containsSubstr (findRestaurantsPrompt "Any Cuisine" "Any Price" [] [] none)
        "specific dishes") ∧
    filterText [] [] none = "" := by
  refine ⟨?_, by rfl, by rfl, by rfl, by rfl, by decide, by rfl⟩
  intro cuisine price dietary amenities dishes
  unfold findRestaurantsPrompt filterText
  simp [String.append_assoc]

/-- Claim C4 witness: the decomposition instantiated at a search with all
three optional constraints present. -/
theorem claim_C4_filter_clause_order_witness :
    findRestaurantsPrompt "Thai" "$$" ["Vegan", "Gluten-Free"] ["Wi-Fi"]
        (some "Ramen") =
      ("Find top-rated " ++
          (if ("Thai" : String) = "Any Cuisine" then "" else "Thai") ++
          " restaurants near me that are in the " ++
          (if ("$$" : String) = "Any Price" then "any" else "$$") ++ promptMid) ++
        (if (["Vegan", "Gluten-Free"] : List String).length > 0 then
          dietaryClause ["Vegan", "Gluten-Free"] else "") ++
        (if (["Wi-Fi"] : List String).length > 0 then amenityClause ["Wi-Fi"]
          else "") ++
        (if jsTruthy (some "Ramen") then dishClause ((some "Ramen").getD "")
          else "") ++
        promptTail :=
  claim_C4_filter_clause_order.1 "Thai" "$$" ["Vegan", "Gluten-Free"] ["Wi-Fi"]
    (some "Ramen")

/-- Claim C6: the normalized search result's text is the provider's text
exactly when that text is present and non-empty and the fixed
"No details found." fallback otherwise; its chunk list is the provider's
grounding-chunk list exactly when the full path (first candidate →
grounding metadata → chunks) is present and the empty list when any level
is absent; and the normalization itself never raises — a provider success
always maps to a success. -/
theorem claim_C6_response_normalization (r : GenerateContentResponse) :
    (∀ t, r.text = some t → t ≠ "" → resultText r = t) ∧
    ((r.text = none ∨ r.text = some "") → resultText r = "No details found.") ∧
    (∀ c cs m chunks, r.candidates = some (c :: cs) →
      c.groundingMetadata = some m → m.groundingChunks = some chunks →
      resultGroundingChunks r = chunks) ∧
    ((r.candidates = none ∨ r.candidates = some [] ∨
      (∃ c cs, r.candidates = some (c :: cs) ∧
        (c.groundingMetadata = none ∨
          ∃ m, c.groundingMetadata = some m ∧ m.groundingChunks = none))) →
      resultGroundingChunks r = []) ∧
    findRestaurants (ε := Unit) (Except.ok r) =
      Except.ok { text := resultText r, groundingChunks := resultGroundingChunks r } := by
  refine ⟨?_, ?_, ?_, ?_, rfl⟩
  · intro t ht hne
    unfold resultText
    rw [ht]
    simp [hne]
  · rintro (h | h) <;> simp [resultText, h]
  · intro c cs m chunks h1 h2 h3
    unfold resultGroundingChunks
    rw [h1]
    simp [h2, h3]
  · rintro (h | h | ⟨c, cs, h1, h2 | ⟨m, h2, h3⟩⟩) <;>
      simp [resultGroundingChunks, *]

/-- Claim C6 witness: a response with non-empty text and a full metadata
path keeps both verbatim; empty text falls back; a response with no
candidates yields the empty chunk list. -/
theorem claim_C6_response_normalization_witness :
    resultText { text := some "Great places", candidates := none } =
      "Great places" ∧
    resultText { text := some "", candidates := none } = "No details found." ∧
    resultGroundingChunks
      { text := none,
        candidates := some
          [{ groundingMetadata := some { groundingChunks := some [{ maps := none }] } }] } =
      [{ maps := none }] ∧
    resultGroundingChunks { text := none, candidates := none } = [] :=
  ⟨(claim_C6_response_normalization
      { text := some "Great places", candidates := none }).1
      "Great places" rfl (by decide),
   (claim_C6_response_normalization
      { text := some "", candidates := none }).2.1 (Or.inr rfl),
   (claim_C6_response_normalization _).2.2.1
      { groundingMetadata := some { groundingChunks := some [{ maps := none }] } }
      [] { groundingChunks := some [{ maps := none }] } [{ maps := none }]
      rfl rfl rfl,
   (claim_C6_response_normalization
      { text := none, candidates := none }).2.2.2.1 (Or.inl rfl)⟩

/-- Updating the message with a fresh id changes nothing in a list that
does not contain that id. -/
lemma map_update_fresh (l : List ChatMessage) (botId : String)
    (f : ChatMessage → ChatMessage) (h : botId ∉ l.map (fun m => m.id)) :
    l.map (fun msg => if msg.id = botId then f msg else msg) = l := by
  have hall : ∀ m ∈ l, (if m.id = botId then f m else m) = m := by
    intro m hm
    apply if_neg
    intro e
    exact h (e ▸ List.mem_map_of_mem (fun m => m.id) hm)
  rw [List.map_congr_left hall]
  exact List.map_id' l

/-- Searching for a fresh id in a list that does not contain it finds
nothing. -/
lemma find?_id_fresh (l : List ChatMessage) (botId : String)
    (h : botId ∉ l.map (fun m => m.id)) :
    l.find? (fun m => m.id = botId) = none := by
  apply List.find?_eq_none.mpr
  intro m hm
  simp only [decide_eq_true_eq]
  intro e
  exact h (e ▸ List.mem_map_of_mem (fun m => m.id) hm)

/-- The user message appended by `handleSend`. -/
def userMessage (userId input : String) : ChatMessage :=
  { id := userId, role := .user, content := input }

/-- The streaming placeholder appended by `handleSend`, with the given
accumulated content. -/
def botPlaceholder (botId content : String) : ChatMessage :=
  { id := botId, role := .model, content := content, isStreaming := some true }

/-- The apology message appended by the catch block of `handleSend`. -/
def apologyMessage (errId : String) : ChatMessage :=
  { id := errId, role := .model, content := apologyText }

/-- The id of the user message is not the fresh bot id, so freshness of the
bot id extends over the appended user message. -/
lemma fresh_after_user (s : ChatState) (userId botId : String)
    (hfresh : botId ∉ s.messages.map (fun m => m.id)) (hub : botId ≠ userId) :
    botId ∉ (s.messages ++ [userMessage userId s.input]).map (fun m => m.id) := by
  rw [List.map_append]
  intro hmem
  rcases List.mem_append.mp hmem with h | h
  · exact hfresh h
  · simp [userMessage] at h
    exact hub h

/-- `handleSendCommits` on the stream that yields one truthy fragment and
then fails: the committed message lists, written with every map over the
fresh-id-free prefix resolved. -/
lemma handleSendCommits_one_fragment_failure (s : ChatState)
    (userId botId errId frag : String)
    (hin : jsTrim s.input ≠ "") (hload : s.isLoading = false)
    (hfresh : botId ∉ s.messages.map (fun m => m.id)) (hub : botId ≠ userId)
    (hfrag : frag ≠ "") :
    handleSendCommits s userId botId errId (.run [some frag] true) =
      [s.messages ++ [userMessage userId s.input],
       s.messages ++ [userMessage userId s.input, botPlaceholder botId ""],
       s.messages ++ [userMessage userId s.input, botPlaceholder botId frag],
       s.messages ++ [userMessage userId s.input, botPlaceholder botId frag,
         apologyMessage errId]] := by
  have hguard : ¬ (jsTrim s.input = "" ∨ s.isLoading = true) := by
    rw [hload]
    simp [hin]
  have hA : botId ∉ (s.messages ++
      [({ id := userId, role := Role.user, content := s.input,
          isStreaming := none } : ChatMessage)]).map (fun m => m.id) :=
    fresh_after_user s userId botId hfresh hub
  unfold handleSendCommits
  rw [if_neg hguard]
  simp only [List.foldl_cons, List.foldl_nil, chatLoopStep, hfrag, if_neg hfrag,
    if_true, if_false, List.nil_append]
  rw [List.map_append, map_update_fresh _ _ _ hA]
  simp [userMessage, botPlaceholder, apologyMessage, List.append_assoc]

/-- Claim C1 counterexample: from the freshly mounted chat (welcome message
only), sending "Hi" against a stream that yields "Partial" and then fails
leaves, immediately before the apology message, a model message with
content "Partial" whose `isStreaming` flag is still `true` — it is not
cleared, contrary to the claim. -/
theorem claim_C1_streaming_flag_not_cleared :
    handleSendFinalMessages
        { messages := [welcomeMessage], input := "Hi", isLoading := false }
        "1" "2" "3" (.run [some "Partial"] true) =
      [welcomeMessage,
       { id := "1", role := .user, content := "Hi" },
       { id := "2", role := .model, content := "Partial", isStreaming := some true },
       { id := "3", role := .model, content := apologyText }] ∧
    (some true : Option Bool) ≠ some false ∧ (some true : Option Bool) ≠ none := by
  refine ⟨?_, by decide, by decide⟩
  rfl

/-- Claim C1 (amended): after a chat send whose stream yields "Partial" and
then fails, the final message list is the prior list, then the user
message, then a model message with content "Partial" whose streaming flag
is STILL SET (`isStreaming = true` — the flag is cleared only when a
stream completes, which an aborted stream never does), then — appended as
an additional message, never substituted into the half-built placeholder —
a separate model message with exactly the fixed apology text. -/
theorem claim_C1_midstream_failure_amended (s : ChatState)
    (userId botId errId : String)
    (hin : jsTrim s.input ≠ "") (hload : s.isLoading = false)
    (hfresh : botId ∉ s.messages.map (fun m => m.id)) (hub : botId ≠ userId) :
    handleSendFinalMessages s userId botId errId (.run [some "Partial"] true) =
      s.messages ++
        [userMessage userId s.input,
         { id := botId, role := .model, content := "Partial",
           isStreaming := some true },
         { id := errId, role := .model, content := apologyText,
           isStreaming := none }] := by
  unfold handleSendFinalMessages
  rw [handleSendCommits_one_fragment_failure s userId botId errId "Partial"
    hin hload hfresh hub (by decide)]
  simp [botPlaceholder, apologyMessage]

/-- Claim C1 amended witness: the concrete mid-stream-failure run from the
freshly mounted chat. -/
theorem claim_C1_midstream_failure_amended_witness :
    handleSendFinalMessages
        { messages := [welcomeMessage], input := "Hi", isLoading := false }
        "1" "2" "3" (.run [some "Partial"] true) =
      [welcomeMessage] ++
        [userMessage "1" "Hi",
         { id := "2", role := .model, content := "Partial",
           isStreaming := some true },
         { id := "3", role := .model, content := apologyText,
           isStreaming := none }] :=
  claim_C1_midstream_failure_amended
    { messages := [welcomeMessage], input := "Hi", isLoading := false }
    "1" "2" "3" (by decide) rfl (by decide) (by decide)

/-- `handleSendCommits` on a stream that yields three truthy fragments and
completes: the committed message lists, with the accumulator replacing the
placeholder's content at each step and the streaming flag cleared only in
the final commit. -/
lemma handleSendCommits_three_fragments_success (s : ChatState)
    (userId botId errId f1 f2 f3 : String)
    (hin : jsTrim s.input ≠ "") (hload : s.isLoading = false)
    (hfresh : botId ∉ s.messages.map (fun m => m.id)) (hub : botId ≠ userId)
    (h1 : f1 ≠ "") (h2 : f2 ≠ "") (h3 : f3 ≠ "") :
    handleSendCommits s userId botId errId (.run [some f1, some f2, some f3] false) =
      [s.messages ++ [userMessage userId s.input],
       s.messages ++ [userMessage userId s.input, botPlaceholder botId ""],
       s.messages ++ [userMessage userId s.input, botPlaceholder botId f1],
       s.messages ++ [userMessage userId s.input, botPlaceholder botId (f1 ++ f2)],
       s.messages ++ [userMessage userId s.input, botPlaceholder botId (f1 ++ f2 ++ f3)],
       s.messages ++ [userMessage userId s.input,
         { id := botId, role := .model, content := f1 ++ f2 ++ f3,
           isStreaming := some false }]] := by
  have hguard : ¬ (jsTrim s.input = "" ∨ s.isLoading = true) := by
    rw [hload]
    simp [hin]
  have hA : botId ∉ (s.messages ++
      [({ id := userId, role := Role.user, content := s.input,
          isStreaming := none } : ChatMessage)]).map (fun m => m.id) :=
    fresh_after_user s userId botId hfresh hub
  have hApart : ∀ f : ChatMessage → ChatMessage,
      (s.messages ++
        [({ id := userId, role := Role.user, content := s.input,
            isStreaming := none } : ChatMessage)]).map
        (fun msg => if msg.id = botId then f msg else msg) =
      s.messages ++
        [({ id := userId, role := Role.user, content := s.input,
            isStreaming := none } : ChatMessage)] :=
    fun f => map_update_fresh _ _ f hA
  unfold handleSendCommits
  rw [if_neg hguard]
  simp only [List.foldl_cons, List.foldl_nil, chatLoopStep, h1, h2, h3,
    if_neg h1, if_neg h2, if_neg h3, if_true, if_false, List.nil_append]
  simp only [List.map_append, hApart, List.map_cons, List.map_nil]
  simp [userMessage, botPlaceholder, List.append_assoc, String.append_assoc]

/-- Claim C8: for a chat exchange whose stream yields "Hello", ", ",
"world" and completes, the (content, streaming-flag) view of the bot
message across the committed states is exactly
"" → "Hello" → "Hello, " → "Hello, world" in that order — each update
replacing the content with the full accumulated prefix — with the
streaming flag true throughout and set to false only in the final commit,
after the last content state. -/
theorem claim_C8_streaming_accumulation (s : ChatState)
    (userId botId errId : String)
    (hin : jsTrim s.input ≠ "") (hload : s.isLoading = false)
    (hfresh : botId ∉ s.messages.map (fun m => m.id)) (hub : botId ≠ userId) :
    botMessageView botId (handleSendCommits s userId botId errId
        (.run [some "Hello", some ", ", some "world"] false)) =
      [("", some true), ("Hello", some true), ("Hello, ", some true),
       ("Hello, world", some true), ("Hello, world", some false)] := by
  rw [handleSendCommits_three_fragments_success s userId botId errId
    "Hello" ", " "world" hin hload hfresh hub (by decide) (by decide) (by decide)]
  have hfindA : s.messages.find? (fun m => m.id = botId) = none :=
    find?_id_fresh _ _ hfresh
  have hneq : userId ≠ botId := Ne.symm hub
  simp [botMessageView, List.find?_append, hfindA, userMessage, botPlaceholder,
    hneq]

/-- Claim C8 witness: the concrete three-fragment run from the freshly
mounted chat. -/
theorem claim_C8_streaming_accumulation_witness :
    botMessageView "2" (handleSendCommits
        { messages := [welcomeMessage], input := "Hi", isLoading := false }
        "1" "2" "3" (.run [some "Hello", some ", ", some "world"] false)) =
      [("", some true), ("Hello", some true), ("Hello, ", some true),
       ("Hello, world", some true), ("Hello, world", some false)] :=
  claim_C8_streaming_accumulation
    { messages := [welcomeMessage], input := "Hi", isLoading := false }
    "1" "2" "3" (by decide) rfl (by decide) (by decide)

end GourmetHub
